import Mathlib

/-!
Shallow embedding of src/VirusGrowthSimulation.py.

Randomness model: every call of random.random() reads the next value of a
draw stream f : Nat → Rat at a running index k (each primitive returns the
advanced index).  Draw values are rationals; theorems that need the Python
guarantee draw ∈ [0,1) take it as a hypothesis.

Object identity model: Python objects are values plus a numeric identity.
Each virus carries an id field; constructing a new virus object during
reproduce consumes the next fresh id (the fresh counter is threaded through
every function that can allocate).  This lets the development distinguish
"the parent object is appended" from "the returned offspring is appended",
which value semantics alone cannot.

Exceptions: NoChildException and the KeyError a Python dict subscript can
raise are modelled with an explicit error type; a function that can raise
returns Except PyExc instead of a bare value.
-/

namespace VirusSim

/-- The exceptional outcomes reachable in the core: NoChildException
(raised by reproduce to signal no offspring) and Python's KeyError from a
dict subscript with an absent key (the key is recorded). -/
inductive PyExc where
  | noChild
  | keyError (drug : String)
deriving DecidableEq

/-- SimpleVirus (source lines 12-76): maxBirthProb and clearProb, plus the
model's object identity. -/
structure SimpleVirus where
  id : Nat
  maxBirthProb : ℚ
  clearProb : ℚ
deriving DecidableEq

/-- doesClear (source lines 40-50): one uniform draw; True iff
clearProb >= draw.  Returns the decision and the advanced draw index. -/
def SimpleVirus.doesClear (v : SimpleVirus) (f : ℕ → ℚ) (k : ℕ) : Bool × ℕ :=
  (if v.clearProb ≥ f k then true else false, k + 1)

/-- SimpleVirus.reproduce (source lines 53-76): one draw; succeeds iff
maxBirthProb * (1 - popDensity) >= draw, returning a freshly allocated
offspring with the parent's probabilities; otherwise raises
NoChildException (modelled as none).  Returns (result, draw index, fresh
counter); the fresh id is consumed only when an offspring object is built. -/
def SimpleVirus.reproduce (v : SimpleVirus) (popDensity : ℚ) (f : ℕ → ℚ)
    (k fresh : ℕ) : Option SimpleVirus × ℕ × ℕ :=
  if v.maxBirthProb * (1 - popDensity) ≥ f k then
    (some ⟨fresh, v.maxBirthProb, v.clearProb⟩, k + 1, fresh + 1)
  else
    (none, k + 1, fresh)

/-- Patient state (source lines 80-97): the live virus list and maxPop. -/
structure PatientState where
  viruses : List SimpleVirus
  maxPop : ℕ
deriving DecidableEq

/-- The clearance loop of Patient.update (source lines 144-146): one
doesClear draw per virus in list order; survivors keep their order.  The
cleared viruses (those not appended by the source) are also returned so
the accounting claims can speak about them. -/
def clearPhaseS (f : ℕ → ℚ) : List SimpleVirus → ℕ → List SimpleVirus × List SimpleVirus × ℕ
  | [], k => ([], [], k)
  | v :: rest, k =>
      let c := v.doesClear f k
      let (surv, clrd, k') := clearPhaseS f rest c.2
      if c.1 then (surv, v :: clrd, k') else (v :: surv, clrd, k')

/-- The reproduction loop of Patient.update (source lines 149-155): each
survivor attempts reproduce with the step's single popDensity;
NoChildException is swallowed.  On success the source executes
newViruses.append(i) — it appends the parent i and discards the returned
offspring pot (whose id was nevertheless allocated).  The density passed
to each reproduce call is logged. -/
def reproLoopS (popDensity : ℚ) (f : ℕ → ℚ) :
    List SimpleVirus → ℕ → ℕ → List SimpleVirus × List ℚ × ℕ × ℕ
  | [], k, fresh => ([], [], k, fresh)
  | i :: rest, k, fresh =>
      match i.reproduce popDensity f k fresh with
      | (some _pot, k', fresh') =>
          let (tail, log, k'', fr'') := reproLoopS popDensity f rest k' fresh'
          (i :: tail, popDensity :: log, k'', fr'')
      | (none, k', fresh') =>
          let (tail, log, k'', fr'') := reproLoopS popDensity f rest k' fresh'
          (tail, popDensity :: log, k'', fr'')

/-- Everything a single Patient.update call produces: the new state and
returned total, plus the intermediate survivorViruses / newViruses lists
the source stores as attributes, the cleared partition, and the log of
densities passed to reproduce. -/
structure PUpdateOut where
  state : PatientState
  total : ℕ
  survivors : List SimpleVirus
  cleared : List SimpleVirus
  newViruses : List SimpleVirus
  densLog : List ℚ
  k : ℕ
  fresh : ℕ
deriving DecidableEq

/-- Patient.update (source lines 123-158): clearance pass, a single
popDensity = len(survivors) / maxPop, the reproduction loop, then
viruses = survivors + newViruses and the new length is returned. -/
def Patient.update (s : PatientState) (f : ℕ → ℚ) (k fresh : ℕ) : PUpdateOut :=
  let (surv, clrd, k1) := clearPhaseS f s.viruses k
  let popDensity : ℚ := (surv.length : ℚ) / (s.maxPop : ℚ)
  let (newV, log, k2, fr2) := reproLoopS popDensity f surv k1 fresh
  { state := { s with viruses := surv ++ newV }
    total := (surv ++ newV).length
    survivors := surv
    cleared := clrd
    newViruses := newV
    densLog := log
    k := k2
    fresh := fr2 }

/-- Patient.getTotalPop (source lines 114-120). -/
def Patient.getTotalPop (s : PatientState) : ℕ := s.viruses.length

/-- ResistantVirus (source lines 202-227): a SimpleVirus plus the
resistances dict (insertion-ordered association list, keys unique in
every state the program builds) and mutProb. -/
structure ResistantVirus where
  id : Nat
  maxBirthProb : ℚ
  clearProb : ℚ
  resistances : List (String × Bool)
  mutProb : ℚ
deriving DecidableEq

/-- Lookup in the resistances dict: first entry with the given key. -/
def lookupRes : List (String × Bool) → String → Option Bool
  | [], _ => none
  | (d, b) :: rest, drug => if d = drug then some b else lookupRes rest drug

/-- ResistantVirus.isResistantTo (source lines 242-257): returns the
Python value True / False when the drug is a key of the dict; when the
drug is absent the function body falls through and Python returns None,
modelled as Option.none (some true / some false are the two booleans). -/
def ResistantVirus.isResistantTo (v : ResistantVirus) (drug : String) : Option Bool :=
  match lookupRes v.resistances drug with
  | some b => if b then some true else some false
  | none => none

/-- Python truthiness of the three values isResistantTo can produce:
True and False are themselves, None is falsy. -/
def truthy : Option Bool → Bool
  | some b => b
  | none => false

/-- ResistantVirus.doesClear is inherited from SimpleVirus
(source lines 40-50): clearProb >= draw. -/
def ResistantVirus.doesClear (v : ResistantVirus) (f : ℕ → ℚ) (k : ℕ) : Bool × ℕ :=
  (if v.clearProb ≥ f k then true else false, k + 1)

/-- The eligibility loop of ResistantVirus.reproduce (source lines
304-309): for each active drug, if the resistances dict is non-empty the
source evaluates `not self.resistances[drug] or not drug in
self.resistances`; the subscript runs first, so an absent key raises
KeyError before the membership test can fire.  No draws are consumed. -/
def resistCheck (res : List (String × Bool)) : List String → Bool → Except PyExc Bool
  | [], resist => .ok resist
  | drug :: rest, resist =>
      if res.length = 0 then resistCheck res rest resist
      else
        match lookupRes res drug with
        | none => .error (.keyError drug)
        | some b =>
            if (!b) || !(lookupRes res drug).isSome then resistCheck res rest false
            else resistCheck res rest resist

/-- The mutation loop of ResistantVirus.reproduce (source lines 312-318):
one draw per key of the parent's dict, in dict (insertion) order; the
offspring keeps the parent's flag when 1 - mutProb >= draw and flips it
otherwise. -/
def mutateRes (mutProb : ℚ) (f : ℕ → ℚ) : List (String × Bool) → ℕ → List (String × Bool) × ℕ
  | [], k => ([], k)
  | (drug, b) :: rest, k =>
      let inherit := if 1 - mutProb ≥ f k then true else false
      let (tail, k') := mutateRes mutProb f rest (k + 1)
      ((drug, if inherit then b else !b) :: tail, k')

/-- ResistantVirus.reproduce (source lines 260-325): eligibility loop
(may raise KeyError), then — when resist survived — the mutation loop over
the parent's own keys followed by the same birth draw as the simple case;
an ineligible particle raises NoChildException without consuming draws.
The fresh id is consumed only when the offspring object is built. -/
def ResistantVirus.reproduce (v : ResistantVirus) (popDensity : ℚ)
    (activeDrugs : List String) (f : ℕ → ℚ) (k fresh : ℕ) :
    Except PyExc ResistantVirus × ℕ × ℕ :=
  match resistCheck v.resistances activeDrugs true with
  | .error e => (.error e, k, fresh)
  | .ok resist =>
      if resist then
        let (newRes, k1) := mutateRes v.mutProb f v.resistances k
        if v.maxBirthProb * (1 - popDensity) ≥ f k1 then
          (.ok ⟨fresh, v.maxBirthProb, v.clearProb, newRes, v.mutProb⟩, k1 + 1, fresh + 1)
        else
          (.error .noChild, k1 + 1, fresh)
      else
        (.error .noChild, k, fresh)

/-- TreatedPatient state (source lines 330-352): the live virus list,
maxPop, the constructor's stored prescription argument, and the
Prescriptions list of drugs actually administered. -/
structure TPState where
  viruses : List ResistantVirus
  maxPop : ℕ
  prescription : List String
  Prescriptions : List String
deriving DecidableEq

/-- TreatedPatient.__init__ (source lines 336-352): stores viruses,
maxPop and the prescription argument; Prescriptions starts empty. -/
def mkTreatedPatient (viruses : List ResistantVirus) (maxPop : ℕ)
    (prescription : List String) : TPState :=
  ⟨viruses, maxPop, prescription, []⟩

/-- TreatedPatient.getPrescriptions (source lines 370-378). -/
def TreatedPatient.getPrescriptions (s : TPState) : List String := s.Prescriptions

/-- TreatedPatient.getTotalPop is inherited (source lines 114-120). -/
def TreatedPatient.getTotalPop (s : TPState) : ℕ := s.viruses.length

/-- TreatedPatient.getResistPop (source lines 381-400): counts the live
viruses for which every drug of drugResist makes isResistantTo truthy
(True counts, False and None do not). -/
def TreatedPatient.getResistPop (s : TPState) (drugResist : List String) : ℕ :=
  (s.viruses.filter (fun i => drugResist.all (fun d => truthy (i.isResistantTo d)))).length

/-- The clearance loop of TreatedPatient.update (source lines 428-430),
identical in shape to the simple one. -/
def clearPhaseR (f : ℕ → ℚ) : List ResistantVirus → ℕ → List ResistantVirus × List ResistantVirus × ℕ
  | [], k => ([], [], k)
  | v :: rest, k =>
      let c := v.doesClear f k
      let (surv, clrd, k') := clearPhaseR f rest c.2
      if c.1 then (surv, v :: clrd, k') else (v :: surv, clrd, k')

/-- The per-survivor eligibility pre-check of TreatedPatient.update
(source lines 436-440): for each administered drug, when the virus's dict
is non-empty the source subscripts `i.resistances[d]` with no membership
test at all, so an absent key raises KeyError; a False flag clears
reproductiv.  No draws are consumed. -/
def preCheck (res : List (String × Bool)) : List String → Bool → Except PyExc Bool
  | [], r => .ok r
  | d :: rest, r =>
      if res.length = 0 then preCheck res rest r
      else
        match lookupRes res d with
        | none => .error (.keyError d)
        | some b => preCheck res rest (if !b then false else r)

/-- The reproduction loop of TreatedPatient.update (source lines
435-450): pre-check each survivor; when reproductiv (or the dict is
empty) call reproduce with the step's density and the administered drug
list, appending the returned offspring pot on success.  The two
surrounding try blocks catch only NoChildException, so a KeyError — from
the pre-check or from reproduce — aborts the loop and escapes.  The
density passed to each reproduce call is logged (also when that call
raises). -/
def treatLoop (popDensity : ℚ) (drugs : List String) (f : ℕ → ℚ) :
    List ResistantVirus → ℕ → ℕ → Except PyExc (List ResistantVirus) × List ℚ × ℕ × ℕ
  | [], k, fresh => (.ok [], [], k, fresh)
  | i :: rest, k, fresh =>
      match preCheck i.resistances drugs true with
      | .error e => (.error e, [], k, fresh)
      | .ok reproductiv =>
          if reproductiv || i.resistances.length = 0 then
            match i.reproduce popDensity drugs f k fresh with
            | (.error (.keyError d), k', fresh') =>
                (.error (.keyError d), [popDensity], k', fresh')
            | (.error .noChild, k', fresh') =>
                let (res, log, k'', fr'') := treatLoop popDensity drugs f rest k' fresh'
                (res, popDensity :: log, k'', fr'')
            | (.ok pot, k', fresh') =>
                match treatLoop popDensity drugs f rest k' fresh' with
                | (.ok l, log, k'', fr'') => (.ok (pot :: l), popDensity :: log, k'', fr'')
                | (.error e, log, k'', fr'') => (.error e, popDensity :: log, k'', fr'')
          else
            treatLoop popDensity drugs f rest k fresh

deriving instance DecidableEq for Except

/-- Everything a single TreatedPatient.update call produces: the new
state and returned total when the call returns (an escaped KeyError
otherwise), the survivor / cleared partition, the appended offspring
list, and the log of densities passed to reproduce. -/
structure TPUpdateOut where
  result : Except PyExc (TPState × ℕ)
  survivors : List ResistantVirus
  cleared : List ResistantVirus
  newViruses : List ResistantVirus
  densLog : List ℚ
  k : ℕ
  fresh : ℕ
deriving DecidableEq

/-- TreatedPatient.update (source lines 404-453): clearance pass, a
single popDensity = len(survivors) / maxPop, the drug-gated reproduction
loop over self.Prescriptions, then viruses = survivors + newViruses and
the new length is returned; only NoChildException is caught, a KeyError
escapes the whole call leaving self.viruses unchanged. -/
def TreatedPatient.update (s : TPState) (f : ℕ → ℚ) (k fresh : ℕ) : TPUpdateOut :=
  let (surv, clrd, k1) := clearPhaseR f s.viruses k
  let popDensity : ℚ := (surv.length : ℚ) / (s.maxPop : ℚ)
  match treatLoop popDensity s.Prescriptions f surv k1 fresh with
  | (.ok newV, log, k2, fr2) =>
      { result := .ok ({ s with viruses := surv ++ newV }, (surv ++ newV).length)
        survivors := surv
        cleared := clrd
        newViruses := newV
        densLog := log
        k := k2
        fresh := fr2 }
  | (.error e, log, k2, fr2) =>
      { result := .error e
        survivors := surv
        cleared := clrd
        newViruses := []
        densLog := log
        k := k2
        fresh := fr2 }

/-- The Python values TreatedPatient.addPrescription can receive and
store: strings and lists (the method iterates its argument and appends it
whole, so both shapes occur). -/
inductive PyObj where
  | str (s : String)
  | list (l : List PyObj)

mutual

/-- Python structural equality on those values. -/
def pyBeq : PyObj → PyObj → Bool
  | .str a, .str b => a == b
  | .list a, .list b => pyBeqList a b
  | .str _, .list _ => false
  | .list _, .str _ => false

/-- Python structural equality, list case. -/
def pyBeqList : List PyObj → List PyObj → Bool
  | [], [] => true
  | x :: xs, y :: ys => pyBeq x y && pyBeqList xs ys
  | [], _ :: _ => false
  | _ :: _, [] => false

end

/-- Python membership x in l: some element compares equal to x. -/
def pyMem (x : PyObj) (l : List PyObj) : Bool := l.any (fun y => pyBeq x y)

/-- Python iteration: a string yields its one-character strings, a list
yields its elements. -/
def pyIter : PyObj → List PyObj
  | .str s => s.data.map (fun c => .str (String.singleton c))
  | .list l => l

/-- TreatedPatient.addPrescription (source lines 355-367): iterate
newDrugs, but the loop body tests and appends the WHOLE newDrugs value,
never the loop variable d — so a non-empty argument not already present
is appended exactly once, as a single element. -/
def TreatedPatient.addPrescription (Prescriptions : List PyObj) (newDrugs : PyObj) :
    List PyObj :=
  (pyIter newDrugs).foldl
    (fun acc _d => if pyMem newDrugs acc then acc else acc ++ [newDrugs]) Prescriptions

/-- TreatedPatient.addPrescription specialised to the call shape the
driver uses, p.addPrescription(d) with d a single drug-name string
(source lines 355-367 at 493-494): iterating the string's characters,
the whole string is appended once when it is non-empty and absent. -/
def TreatedPatient.addPrescriptionStr (s : TPState) (newDrugs : String) : TPState :=
  { s with Prescriptions :=
      (newDrugs.data.foldl
        (fun acc _c => if newDrugs ∈ acc then acc else acc ++ [newDrugs]) s.Prescriptions) }

/-- The first 150-step loop of one simulationWithDrug trial (source lines
480-491): update p, then read p.getTotalPop() and
p.getResistPop(patient.getPrescriptions()) — the resist count's drug
subset is the TEMPLATE patient's administered list.  The drugResist
argument passed at each step is logged; an escaped exception aborts the
trial. -/
def trialPhase1 (patient : TPState) (f : ℕ → ℚ) :
    ℕ → TPState → ℕ → ℕ → Except PyExc TPState × List (List String) × ℕ × ℕ
  | 0, p, k, fresh => (.ok p, [], k, fresh)
  | n + 1, p, k, fresh =>
      let o := TreatedPatient.update p f k fresh
      match o.result with
      | .error e => (.error e, [], o.k, o.fresh)
      | .ok (p', _total) =>
          let subset := TreatedPatient.getPrescriptions patient
          let (res, log, k', fr') := trialPhase1 patient f n p' o.k o.fresh
          (res, subset :: log, k', fr')

/-- The second 150-step loop of one simulationWithDrug trial (source
lines 496-507): update p, then read p.getTotalPop() and
p.getResistPop(p.getPrescriptions()) — now the subset is the TRIAL
patient's own administered list. -/
def trialPhase2 (f : ℕ → ℚ) :
    ℕ → TPState → ℕ → ℕ → Except PyExc TPState × List (List String) × ℕ × ℕ
  | 0, p, k, fresh => (.ok p, [], k, fresh)
  | n + 1, p, k, fresh =>
      let o := TreatedPatient.update p f k fresh
      match o.result with
      | .error e => (.error e, [], o.k, o.fresh)
      | .ok (p', _total) =>
          let subset := TreatedPatient.getPrescriptions p'
          let (res, log, k', fr') := trialPhase2 f n p' o.k o.fresh
          (res, subset :: log, k', fr')

/-- One trial of simulationWithDrug (source lines 477-507): build
p = TreatedPatient(patient.viruses, patient.maxPop, []), run 150 steps
measuring against patient.getPrescriptions(), then for each d in
patient.prescription call p.addPrescription(d), then run 150 further
steps measuring against p.getPrescriptions().  Returns the final state
(or the escaped exception) together with the concatenated log of
drugResist subsets passed to getResistPop, one entry per completed
step. -/
def simulationWithDrugTrial (patient : TPState) (f : ℕ → ℚ) (k fresh : ℕ) :
    Except PyExc TPState × List (List String) × ℕ × ℕ :=
  let p0 := mkTreatedPatient patient.viruses patient.maxPop []
  match trialPhase1 patient f 150 p0 k fresh with
  | (.error e, log, k', fr') => (.error e, log, k', fr')
  | (.ok p1, log1, k1, fr1) =>
      let p2 := patient.prescription.foldl TreatedPatient.addPrescriptionStr p1
      match trialPhase2 f 150 p2 k1 fr1 with
      | (res, log2, k2, fr2) => (res, log1 ++ log2, k2, fr2)

/-- Forget the stored constructor prescription argument of a treated
state (the one attribute that is not an observable of the dynamics). -/
def TPState.eraseP (s : TPState) : TPState := { s with prescription := [] }

/-- Every observable a treated container exposes, bundled: the full
update output (with the inert stored prescription erased from the result
state) and the getTotalPop / getResistPop / getPrescriptions queries and
the administered list after an addPrescription call. -/
def TPobservables (s : TPState) (f : ℕ → ℚ) (k fresh : ℕ) (ds : List String) (d : String) :
    Except PyExc (TPState × ℕ) × List ResistantVirus × List ResistantVirus ×
      List ResistantVirus × List ℚ × ℕ × ℕ × ℕ × ℕ × List String × List String :=
  ((TreatedPatient.update s f k fresh).result.map (fun x => (TPState.eraseP x.1, x.2)),
   (TreatedPatient.update s f k fresh).survivors,
   (TreatedPatient.update s f k fresh).cleared,
   (TreatedPatient.update s f k fresh).newViruses,
   (TreatedPatient.update s f k fresh).densLog,
   (TreatedPatient.update s f k fresh).k,
   (TreatedPatient.update s f k fresh).fresh,
   TreatedPatient.getTotalPop s,
   TreatedPatient.getResistPop s ds,
   TreatedPatient.getPrescriptions s,
   (TreatedPatient.addPrescriptionStr s d).Prescriptions)

/-! Helper lemmas shared by the claim theorems. -/

/-- The clearance pass partitions the input: survivors and cleared
together account for every pre-update virus. -/
theorem clearPhaseS_partition (f : ℕ → ℚ) (l : List SimpleVirus) (k : ℕ) :
    ((clearPhaseS f l k).1).length + ((clearPhaseS f l k).2.1).length = l.length := by
  induction l generalizing k with
  | nil => rfl
  | cons v rest ih =>
      simp only [clearPhaseS]
      rcases h : clearPhaseS f rest (v.doesClear f k).2 with ⟨surv, clrd, k'⟩
      have := ih (v.doesClear f k).2
      rw [h] at this
      simp only [] at this
      by_cases hc : (v.doesClear f k).1 <;> simp [hc] <;> omega

/-- The treated clearance pass partitions the input likewise. -/
theorem clearPhaseR_partition (f : ℕ → ℚ) (l : List ResistantVirus) (k : ℕ) :
    ((clearPhaseR f l k).1).length + ((clearPhaseR f l k).2.1).length = l.length := by
  induction l generalizing k with
  | nil => rfl
  | cons v rest ih =>
      simp only [clearPhaseR]
      rcases h : clearPhaseR f rest (v.doesClear f k).2 with ⟨surv, clrd, k'⟩
      have := ih (v.doesClear f k).2
      rw [h] at this
      simp only [] at this
      by_cases hc : (v.doesClear f k).1 <;> simp [hc] <;> omega

/-- The simple reproduction loop makes exactly one reproduce attempt per
survivor, always with the same density it was given. -/
theorem reproLoopS_log (d : ℚ) (f : ℕ → ℚ) (l : List SimpleVirus) (k fresh : ℕ) :
    (reproLoopS d f l k fresh).2.1 = List.replicate l.length d := by
  induction l generalizing k fresh with
  | nil => rfl
  | cons i rest ih =>
      simp only [reproLoopS]
      rcases h : i.reproduce d f k fresh with ⟨o, k', fr'⟩
      cases o <;> simp [ih, List.replicate_succ]

/-- Every density the treated reproduction loop passes to a reproduce
call is the one it was given: the log is a replicate of that single
value. -/
theorem treatLoop_log (d : ℚ) (drugs : List String) (f : ℕ → ℚ)
    (l : List ResistantVirus) (k fresh : ℕ) :
    ∃ m, (treatLoop d drugs f l k fresh).2.1 = List.replicate m d := by
  induction l generalizing k fresh with
  | nil => exact ⟨0, rfl⟩
  | cons i rest ih =>
      simp only [treatLoop]
      split
      · exact ⟨0, rfl⟩
      · split
        · split
          · exact ⟨1, rfl⟩
          · next k' fr' _ =>
              rcases h2 : treatLoop d drugs f rest k' fr' with ⟨res2, log2, k2, fr2⟩
              obtain ⟨m, hm⟩ := ih k' fr'
              rw [h2] at hm
              simp only [] at hm
              exact ⟨m + 1, by simp [h2, hm, List.replicate_succ]⟩
          · next pot k' fr' _ =>
              rcases h2 : treatLoop d drugs f rest k' fr' with ⟨res2, log2, k2, fr2⟩
              obtain ⟨m, hm⟩ := ih k' fr'
              rw [h2] at hm
              simp only [] at hm
              cases res2 <;> exact ⟨m + 1, by simp [h2, hm, List.replicate_succ]⟩
        · exact ih k fresh

/-- The eligibility loop is vacuous for a particle with an empty
resistance dict: the guard skips every active drug. -/
theorem resistCheck_nil (drugs : List String) (b : Bool) :
    resistCheck [] drugs b = .ok b := by
  induction drugs with
  | nil => rfl
  | cons d rest ih => simpa [resistCheck] using ih

/-! Claim theorems. -/

/-- Claim C1 (code bug): in Patient.update the particle appended on a
successful reproduce call is the PARENT, not the returned offspring.  At
a concrete one-virus patient (maxBirthProb 1, clearProb 0, maxPop 10,
draws all 1/2, next fresh id 1) the survivor reproduces, and the element
appended to newViruses is the parent object (id 0) while the freshly
allocated offspring (id 1) was discarded — the fresh counter still
advanced to 2.  The treated container, by contrast, appends the returned
offspring pot (id 1). -/
theorem C1_parent_appended_eval :
    (Patient.update ⟨[⟨0, 1, 0⟩], 10⟩ (fun _ => mkRat 1 2) 0 1).newViruses = [⟨0, 1, 0⟩] ∧
    (Patient.update ⟨[⟨0, 1, 0⟩], 10⟩ (fun _ => mkRat 1 2) 0 1).fresh = 2 ∧
    (TreatedPatient.update ⟨[⟨0, 1, 0, [], 0⟩], 10, [], []⟩ (fun _ => mkRat 1 2) 0 1).newViruses
      = [⟨1, 1, 0, [], 0⟩] :=
  ⟨by with_unfolding_all rfl, by with_unfolding_all rfl, by with_unfolding_all rfl⟩

/-- Claim C2 (code bug): with an active drug absent from a survivor's
non-empty resistance dict, TreatedPatient.update raises KeyError — the
subscript of the dict runs before any membership test and the update
loop catches only NoChildException, so the KeyError escapes update; the
same subscript-first slip sits in ResistantVirus.reproduce. -/
theorem C2_keyError_escapes_eval :
    (TreatedPatient.update ⟨[⟨0, 1, 0, [("a", true)], 0⟩], 10, [], ["b"]⟩
        (fun _ => mkRat 1 2) 0 1).result = .error (.keyError "b") ∧
    (ResistantVirus.reproduce ⟨0, 1, 0, [("a", true)], 0⟩ 0 ["b"]
        (fun _ => mkRat 1 2) 0 1).1 = .error (.keyError "b") :=
  ⟨by with_unfolding_all rfl, by with_unfolding_all rfl⟩

/-- Claim C5 (code bug): isResistantTo on a drug absent from the
resistance dict returns Python None (the function body falls through
without reaching a return), not the boolean False the claim states; None
is merely falsy. -/
theorem C5_absent_drug_none_eval :
    ResistantVirus.isResistantTo ⟨0, 1, 0, [("a", true)], 0⟩ "b" = none ∧
    ResistantVirus.isResistantTo ⟨0, 1, 0, [], 0⟩ "b" = none ∧
    (none : Option Bool) ≠ some false :=
  ⟨rfl, rfl, by decide⟩

/-- Claim C6 (code bug): addPrescription iterates newDrugs but tests and
appends the WHOLE argument (the loop variable is never used), so the
two-drug sequence is appended as one single element rather than element
by element; a repeated call is still a no-op. -/
theorem C6_whole_sequence_appended_eval :
    TreatedPatient.addPrescription [] (.list [.str "a", .str "b"])
      = [PyObj.list [PyObj.str "a", PyObj.str "b"]] ∧
    TreatedPatient.addPrescription [] (.list [.str "a", .str "b"])
      ≠ [PyObj.str "a", PyObj.str "b"] ∧
    TreatedPatient.addPrescription [PyObj.list [PyObj.str "a", PyObj.str "b"]]
        (.list [.str "a", .str "b"])
      = [PyObj.list [PyObj.str "a", PyObj.str "b"]] := by
  have e1 : TreatedPatient.addPrescription [] (.list [.str "a", .str "b"])
      = [PyObj.list [PyObj.str "a", PyObj.str "b"]] := by with_unfolding_all rfl
  refine ⟨e1, ?_, by with_unfolding_all rfl⟩
  rw [e1]
  intro h
  have hlen := congrArg List.length h
  simp at hlen

/-- Claim C4 counterexample: a resistant particle with an EMPTY
resistance dict and the non-empty active list ["a"] reproduces — the
eligibility loop's guard skips every drug when the dict is empty, so the
particle is treated as eligible and the birth draw (1 * (1 - 0) ≥ 1/2)
succeeds, returning an offspring instead of the claimed NoOffspring. -/
theorem C4_empty_map_reproduces_cx :
    (ResistantVirus.reproduce ⟨0, 1, 0, [], 0⟩ 0 ["a"] (fun _ => mkRat 1 2) 0 7).1
      = .ok ⟨7, 1, 0, [], 0⟩ ∧
    (ResistantVirus.reproduce ⟨0, 1, 0, [], 0⟩ 0 ["a"] (fun _ => mkRat 1 2) 0 7).1
      ≠ .error .noChild := by
  have e1 : (ResistantVirus.reproduce ⟨0, 1, 0, [], 0⟩ 0 ["a"] (fun _ => mkRat 1 2) 0 7).1
      = .ok ⟨7, 1, 0, [], 0⟩ := by with_unfolding_all rfl
  refine ⟨e1, ?_⟩
  rw [e1]
  intro h
  exact Except.noConfusion h

/-- Claim C4 amended: a resistant particle with an empty resistance dict
is treated as ELIGIBLE for every activeDrugs list — reproduce skips the
resistance gate and the mutation loop and reduces to the bare birth
draw, succeeding (with an empty-dict offspring) iff
maxBirthProb * (1 - popDensity) ≥ the draw, and raising NoChildException
only through that draw. -/
theorem C4_empty_map_eligible (v : ResistantVirus) (activeDrugs : List String)
    (ρ : ℚ) (f : ℕ → ℚ) (k fresh : ℕ) (h : v.resistances = []) :
    v.reproduce ρ activeDrugs f k fresh
      = if v.maxBirthProb * (1 - ρ) ≥ f k
        then (.ok ⟨fresh, v.maxBirthProb, v.clearProb, [], v.mutProb⟩, k + 1, fresh + 1)
        else (.error .noChild, k + 1, fresh) := by
  simp only [ResistantVirus.reproduce, h, resistCheck_nil, mutateRes, eq_self_iff_true,
    if_true]

/-- Witness for C4_empty_map_eligible at a concrete particle and draw. -/
theorem C4_empty_map_eligible_witness :
    (⟨0, 1, 0, [], 0⟩ : ResistantVirus).resistances = [] ∧
    ResistantVirus.reproduce ⟨0, 1, 0, [], 0⟩ 0 ["a"] (fun _ => mkRat 1 2) 0 7
      = (.ok ⟨7, 1, 0, [], 0⟩, 1, 8) := by
  refine ⟨rfl, ?_⟩
  rw [C4_empty_map_eligible ⟨0, 1, 0, [], 0⟩ ["a"] 0 (fun _ => mkRat 1 2) 0 7 rfl]
  with_unfolding_all rfl

/-- Claim C7 counterexample: at popDensity = 1.0 the reproduction
probability is 1 * (1 - 1) = 0, and against the boundary draw 0.0 — a
value random.random() can return, lying in [0,1) — the source's
comparison p >= draw holds, so reproduce SUCCEEDS instead of always
failing with NoOffspring. -/
theorem C7_boundary_draw_cx :
    (0 : ℚ) ≤ 0 ∧ (0 : ℚ) < 1 ∧
    (SimpleVirus.reproduce ⟨0, 1, 0⟩ 1 (fun _ => (0 : ℚ)) 0 5).1 = some ⟨5, 1, 0⟩ ∧
    (SimpleVirus.reproduce ⟨0, 1, 0⟩ 1 (fun _ => (0 : ℚ)) 0 5).1 ≠ none := by
  have e1 : (SimpleVirus.reproduce ⟨0, 1, 0⟩ 1 (fun _ => (0 : ℚ)) 0 5).1 = some ⟨5, 1, 0⟩ := by
    with_unfolding_all rfl
  refine ⟨le_refl 0, by norm_num, e1, ?_⟩
  rw [e1]
  intro h
  exact Option.noConfusion h

/-- Claim C7 amended: for popDensity ≥ 1.0 and a valid maxBirthProb ≥ 0
the reproduction probability maxBirthProb * (1 - popDensity) is ≤ 0, so
reproduce fails with NoOffspring against every STRICTLY POSITIVE draw
(both the simple and the resistant variant, the latter never returning
an offspring whatever the drug gate does); only the boundary draw 0.0
with probability exactly 0 escapes, as the counterexample shows. -/
theorem C7_high_density_no_offspring :
    (∀ (v : SimpleVirus) (ρ : ℚ) (f : ℕ → ℚ) (k fresh : ℕ),
        0 ≤ v.maxBirthProb → 1 ≤ ρ → 0 < f k →
        (v.reproduce ρ f k fresh).1 = none) ∧
    (∀ (v : ResistantVirus) (drugs : List String) (ρ : ℚ) (f : ℕ → ℚ) (k fresh : ℕ),
        0 ≤ v.maxBirthProb → 1 ≤ ρ → (∀ j, 0 < f j) →
        ∀ child, (v.reproduce ρ drugs f k fresh).1 ≠ .ok child) := by
  constructor
  · intro v ρ f k fresh hmb hρ hf
    have hp : v.maxBirthProb * (1 - ρ) ≤ 0 := by nlinarith
    simp only [SimpleVirus.reproduce]
    rw [if_neg (not_le.mpr (lt_of_le_of_lt hp hf))]
  · intro v drugs ρ f k fresh hmb hρ hf child
    have hp : v.maxBirthProb * (1 - ρ) ≤ 0 := by nlinarith
    simp only [ResistantVirus.reproduce]
    rcases hrc : resistCheck v.resistances drugs true with e | resist
    · simp
    · simp only []
      cases resist
      · simp
      · rcases hmut : mutateRes v.mutProb f v.resistances k with ⟨newRes, k1⟩
        simp only [hmut, if_true]
        rw [if_neg (not_le.mpr (lt_of_le_of_lt hp (hf k1)))]
        simp

/-- Witness for C7_high_density_no_offspring at concrete particles,
density exactly 1 and a constant positive draw. -/
theorem C7_high_density_no_offspring_witness :
    (0 : ℚ) ≤ 1 ∧ (1 : ℚ) ≤ 1 ∧ (∀ j : ℕ, (0 : ℚ) < (fun _ => (1 : ℚ)) j) ∧
    (SimpleVirus.reproduce ⟨0, 1, 0⟩ 1 (fun _ => (1 : ℚ)) 0 5).1 = none ∧
    (∀ child, (ResistantVirus.reproduce ⟨0, 1, 0, [("a", true)], 0⟩ 1 ["a"]
        (fun _ => (1 : ℚ)) 0 5).1 ≠ .ok child) := by
  have hf : ∀ j : ℕ, (0 : ℚ) < (fun _ => (1 : ℚ)) j := fun _ => by norm_num
  refine ⟨by norm_num, le_refl 1, hf, ?_, ?_⟩
  · exact C7_high_density_no_offspring.1 ⟨0, 1, 0⟩ 1 (fun _ => (1 : ℚ)) 0 5
      (by norm_num) (le_refl 1) (hf 0)
  · exact C7_high_density_no_offspring.2 ⟨0, 1, 0, [("a", true)], 0⟩ ["a"] 1
      (fun _ => (1 : ℚ)) 0 5 (by norm_num) (le_refl 1) hf

/-- Claim C8: update-step population accounting for both containers —
the returned total is the survivor count plus the count of elements
appended by the reproduction loop, and survivors plus cleared partition
the pre-update population exactly; for the treated container this holds
whenever update returns at all (rather than escaping with KeyError). -/
theorem C8_population_accounting :
    (∀ (s : PatientState) (f : ℕ → ℚ) (k fresh : ℕ),
        (Patient.update s f k fresh).total
          = (Patient.update s f k fresh).survivors.length
            + (Patient.update s f k fresh).newViruses.length
        ∧ (Patient.update s f k fresh).survivors.length
            + (Patient.update s f k fresh).cleared.length = s.viruses.length) ∧
    (∀ (s : TPState) (f : ℕ → ℚ) (k fresh : ℕ) (st : TPState) (n : ℕ),
        (TreatedPatient.update s f k fresh).result = Except.ok (st, n) →
        n = (TreatedPatient.update s f k fresh).survivors.length
            + (TreatedPatient.update s f k fresh).newViruses.length
        ∧ (TreatedPatient.update s f k fresh).survivors.length
            + (TreatedPatient.update s f k fresh).cleared.length = s.viruses.length) := by
  constructor
  · intro s f k fresh
    rcases h1 : clearPhaseS f s.viruses k with ⟨surv, clrd, k1⟩
    rcases h2 : reproLoopS ((surv.length : ℚ) / (s.maxPop : ℚ)) f surv k1 fresh
      with ⟨newV, log, k2, fr2⟩
    have hpart := clearPhaseS_partition f s.viruses k
    rw [h1] at hpart
    simp only [] at hpart
    constructor
    · simp [Patient.update, h1, h2]
    · simpa [Patient.update, h1, h2] using hpart
  · intro s f k fresh st n hok
    rcases h1 : clearPhaseR f s.viruses k with ⟨surv, clrd, k1⟩
    rcases h2 : treatLoop ((surv.length : ℚ) / (s.maxPop : ℚ)) s.Prescriptions f surv k1 fresh
      with ⟨res, log, k2, fr2⟩
    have hpart := clearPhaseR_partition f s.viruses k
    rw [h1] at hpart
    simp only [] at hpart
    simp only [TreatedPatient.update, h1, h2] at hok ⊢
    cases res with
    | error e => simp at hok
    | ok newV =>
        simp only [Except.ok.injEq, Prod.mk.injEq] at hok
        obtain ⟨hst, hn⟩ := hok
        constructor
        · rw [← hn]
          simp
        · simpa using hpart

/-- Witness for the treated half of C8_population_accounting at a
concrete state whose update succeeds with one survivor and one
offspring. -/
theorem C8_population_accounting_witness :
    2 = (TreatedPatient.update ⟨[⟨0, 1, 0, [], 0⟩], 10, [], []⟩
          (fun _ => mkRat 1 2) 0 1).survivors.length
        + (TreatedPatient.update ⟨[⟨0, 1, 0, [], 0⟩], 10, [], []⟩
            (fun _ => mkRat 1 2) 0 1).newViruses.length
    ∧ (TreatedPatient.update ⟨[⟨0, 1, 0, [], 0⟩], 10, [], []⟩
          (fun _ => mkRat 1 2) 0 1).survivors.length
        + (TreatedPatient.update ⟨[⟨0, 1, 0, [], 0⟩], 10, [], []⟩
            (fun _ => mkRat 1 2) 0 1).cleared.length
      = (⟨[⟨0, 1, 0, [], 0⟩], 10, [], []⟩ : TPState).viruses.length :=
  C8_population_accounting.2 ⟨[⟨0, 1, 0, [], 0⟩], 10, [], []⟩ (fun _ => mkRat 1 2) 0 1
    ⟨[⟨0, 1, 0, [], 0⟩, ⟨1, 1, 0, [], 0⟩], 10, [], []⟩ 2 (by with_unfolding_all rfl)

/-- Claim C9: within one update call the population density is one
single value, the post-clearance pre-reproduction survivor count divided
by maxPop, and that value is what every reproduce attempt of the step
receives: the simple container logs exactly one attempt per survivor,
all at that density, and every density the treated container's loop logs
is that same value — no attempt sees a density updated by earlier
offspring of the step. -/
theorem C9_single_density :
    (∀ (s : PatientState) (f : ℕ → ℚ) (k fresh : ℕ),
        (Patient.update s f k fresh).densLog
          = List.replicate (Patient.update s f k fresh).survivors.length
              (((Patient.update s f k fresh).survivors.length : ℚ) / (s.maxPop : ℚ))) ∧
    (∀ (s : TPState) (f : ℕ → ℚ) (k fresh : ℕ),
        (TreatedPatient.update s f k fresh).densLog
          = List.replicate (TreatedPatient.update s f k fresh).densLog.length
              (((TreatedPatient.update s f k fresh).survivors.length : ℚ) / (s.maxPop : ℚ))) := by
  constructor
  · intro s f k fresh
    rcases h1 : clearPhaseS f s.viruses k with ⟨surv, clrd, k1⟩
    rcases h2 : reproLoopS ((surv.length : ℚ) / (s.maxPop : ℚ)) f surv k1 fresh
      with ⟨newV, log, k2, fr2⟩
    have hlog := reproLoopS_log ((surv.length : ℚ) / (s.maxPop : ℚ)) f surv k1 fresh
    rw [h2] at hlog
    simp only [] at hlog
    simp [Patient.update, h1, h2, hlog]
  · intro s f k fresh
    rcases h1 : clearPhaseR f s.viruses k with ⟨surv, clrd, k1⟩
    rcases h2 : treatLoop ((surv.length : ℚ) / (s.maxPop : ℚ)) s.Prescriptions f surv k1 fresh
      with ⟨res, log, k2, fr2⟩
    obtain ⟨m, hm⟩ :=
      treatLoop_log ((surv.length : ℚ) / (s.maxPop : ℚ)) s.Prescriptions f surv k1 fresh
    rw [h2] at hm
    simp only [] at hm
    cases res with
    | ok newV => simp [TreatedPatient.update, h1, h2, hm]
    | error e => simp [TreatedPatient.update, h1, h2, hm]

/-- Claim C10: the constructor's stored prescription argument is inert —
two treated containers agreeing on the virus collection, maxPop and the
administered Prescriptions list produce, for every draw stream, fresh
counter, query subset and added drug, identical update outputs (up to
the stored argument itself, which the dynamics never read) and identical
query and addPrescription results. -/
theorem C10_prescription_inert (s1 s2 : TPState)
    (hv : s1.viruses = s2.viruses) (hm : s1.maxPop = s2.maxPop)
    (hp : s1.Prescriptions = s2.Prescriptions)
    (f : ℕ → ℚ) (k fresh : ℕ) (ds : List String) (d : String) :
    TPobservables s1 f k fresh ds d = TPobservables s2 f k fresh ds d := by
  obtain ⟨v1, m1, pr1, P1⟩ := s1
  obtain ⟨v2, m2, pr2, P2⟩ := s2
  dsimp only at hv hm hp
  subst hv
  subst hm
  subst hp
  simp only [TPobservables, TreatedPatient.update, TreatedPatient.getTotalPop,
    TreatedPatient.getResistPop, TreatedPatient.getPrescriptions,
    TreatedPatient.addPrescriptionStr, TPState.eraseP]
  rcases h1 : clearPhaseR f v1 k with ⟨surv, clrd, k1⟩
  rcases h2 : treatLoop ((surv.length : ℚ) / (m1 : ℚ)) P1 f surv k1 fresh
    with ⟨res, log, k2, fr2⟩
  cases res <;> simp [Except.map]

/-- Witness for C10_prescription_inert: two containers identical but for
the stored prescription argument (["x"] against []). -/
theorem C10_prescription_inert_witness :
    TPobservables ⟨[⟨0, 1, 0, [("a", true)], 0⟩], 10, ["x"], ["a"]⟩
        (fun _ => mkRat 1 2) 0 1 ["a"] "b"
      = TPobservables ⟨[⟨0, 1, 0, [("a", true)], 0⟩], 10, [], ["a"]⟩
        (fun _ => mkRat 1 2) 0 1 ["a"] "b" :=
  C10_prescription_inert ⟨[⟨0, 1, 0, [("a", true)], 0⟩], 10, ["x"], ["a"]⟩
    ⟨[⟨0, 1, 0, [("a", true)], 0⟩], 10, [], ["a"]⟩ rfl rfl rfl
    (fun _ => mkRat 1 2) 0 1 ["a"] "b"

set_option maxRecDepth 400000 in
/-- Claim C3 (code bug): in one trial of the treated driver the
drugResist subset handed to getResistPop is patient.getPrescriptions()
— the template patient's administered list, empty since addPrescription
is never called on it — for all 150 pre-prescription steps, but
p.getPrescriptions() = ["guttagonol"] for all 150 post-prescription
steps: the subset is not fixed once at trial start and the two phases of
the resistant-population curve are measured against different drug
sets. -/
theorem C3_subset_not_fixed_eval :
    (simulationWithDrugTrial ⟨[⟨0, 0, 0, [("guttagonol", true)], 0⟩], 10, ["guttagonol"], []⟩
        (fun _ => mkRat 1 2) 0 100).2.1
      = List.replicate 150 ([] : List String) ++ List.replicate 150 ["guttagonol"] ∧
    ([] : List String) ≠ ["guttagonol"] :=
  ⟨by with_unfolding_all rfl, by decide⟩

end VirusSim
